import Mathlib

/-
  Verification of the webScorin crawl/job engine.

  Shallow embedding of src/app/crawler.py (SiteCrawler), src/app/tasks.py
  (scan_site task) and src/app/api.py (create_scan endpoint).  External
  effects (browser navigation, screenshots, page content, whois / ip
  lookups, the task queue, clock reads) are modelled as oracle fields of an
  environment record; the store is modelled as the ordered list of records
  written to the job key.  Machine floats are modelled as rationals; the
  score formulas are identical expressions on both sides, so exactness of
  the number type does not change any compared equality.
-/

namespace WebScorin

/-- ScanStatus enum from models.py. -/
inductive ScanStatus
  | pending
  | processing
  | completed
  | failed
deriving DecidableEq, Repr, Inhabited

/-- Record returned by the whois library (fields read by the code). -/
structure WhoisRecord where
  registrar : Option String
  creation_date : Option String
  expiration_date : Option String
  status : Option String
deriving DecidableEq, Repr, Inhabited

/-- Record returned by the ipwhois lookup (fields read by the code). -/
structure IpRecord where
  asn : Option String
  asn_description : Option String
  country : Option String
  org : Option String
deriving DecidableEq, Repr, Inhabited

/-- The dict built by SiteCrawler._get_domain_info on success. -/
structure DomainInfo where
  domain : String
  registrar : Option String
  creation_date : Option String
  expiration_date : Option String
  status : Option String
deriving DecidableEq, Repr, Inhabited

/-- The dict built by SiteCrawler._get_ip_info on success. -/
structure IpInfo where
  ip : String
  asn : Option String
  asn_description : Option String
  country : Option String
  org : Option String
deriving DecidableEq, Repr, Inhabited

/-- The mutable state of a SiteCrawler instance (crawler.py, __init__).
    Python sets become Finsets; the html dict becomes an assoc list. -/
structure CrawlState where
  crawled_urls : Finset String
  all_links : Finset String
  internal_links : Finset String
  external_links : Finset String
  html_content : List (String × String)
  screenshot_path : Option String
deriving DecidableEq

/-- Oracle for every external effect the crawler performs.  Except String
    models a Python call that either returns or raises (with the message
    str(e)). -/
structure CrawlEnv where
  /-- page.goto on the seed page, per attempt index (crawler.py line 92). -/
  seed_nav : ℕ → Except String Unit
  /-- page.screenshot on the seed page (crawler.py line 107). -/
  screenshot_ok : Except String Unit
  /-- the filename derived from the timestamp (crawler.py line 105). -/
  screenshot_name : String
  /-- page.content(), keyed by the page url (lines 112 and 197). -/
  page_content : String → Except String String
  /-- eval_on_selector_all href harvest, keyed by the page url (line 141). -/
  raw_links : String → Except String (List String)
  /-- validators.url (line 148). -/
  is_valid_url : String → Bool
  /-- urljoin base link (line 151). -/
  url_join : String → String → String
  /-- tldextract registered_domain (lines 122, 124, 209, 249, 264). -/
  registered_domain : String → String
  /-- browser.new_page() per internal link (line 167). -/
  new_page_ok : String → Bool
  /-- new_page.goto per internal link, per attempt index (line 180). -/
  sub_nav : String → ℕ → Except String Unit
  /-- socket.gethostbyname (line 265). -/
  gethostbyname : String → Except String String
  /-- whois.whois (line 250). -/
  whois_lookup : String → Except String WhoisRecord
  /-- IPWhois(...).lookup_whois (line 267). -/
  ip_lookup : String → Except String IpRecord

instance {ε α : Type} [DecidableEq ε] [DecidableEq α] :
    DecidableEq (Except ε α) := fun x y =>
  match x, y with
  | .ok a, .ok b =>
      if h : a = b then .isTrue (by rw [h])
      else .isFalse (fun he => h (Except.ok.inj he))
  | .error a, .error b =>
      if h : a = b then .isTrue (by rw [h])
      else .isFalse (fun he => h (Except.error.inj he))
  | .ok _, .error _ => .isFalse (fun he => Except.noConfusion he)
  | .error _, .ok _ => .isFalse (fun he => Except.noConfusion he)

/-- The result dict of SiteCrawler._compile_results.  The two enrichment
    slots hold either a payload or the caught error message, matching the
    error-dict convention of the source. -/
structure CrawlResult where
  url : String
  pages_crawled : ℕ
  total_links : ℕ
  internal_links : ℕ
  external_links : ℕ
  crawled_urls : List String
  screenshot_path : Option String
  html_content : List (String × String)
  domain_info : Except String DomainInfo
  ip_info : Except String IpInfo
  content_score : ℚ
  seo_score : ℚ
  performance_score : ℚ
deriving DecidableEq, Inhabited

/-- Python list slicing l[:k] where k may be negative or zero
    (crawler.py line 157 uses max_pages - 1 without a lower guard). -/
def pyTake (k : ℤ) (l : List α) : List α :=
  if 0 ≤ k then l.take k.toNat else l.take ((l.length : ℤ) + k).toNat

/-- SiteCrawler._extract_links: harvest raw hrefs, keep syntactically valid
    absolute urls, resolve root-relative paths, drop the rest. -/
def extract_links (env : CrawlEnv) (pageUrl baseUrl : String) :
    Except String (List String) :=
  match env.raw_links pageUrl with
  | .error e => .error e
  | .ok links =>
      .ok (links.filterMap (fun link =>
        if env.is_valid_url link then some link
        else if link.startsWith "/" then some (env.url_join baseUrl link)
        else none))

/-- One step of the categorisation loop (crawler.py lines 123-127 and
    208-212): a link whose registrable domain equals the base domain goes
    to the internal set, any other link to the external set. -/
def classify_step (env : CrawlEnv) (base_domain : String)
    (s : CrawlState) (link : String) : CrawlState :=
  if env.registered_domain link = base_domain then
    { s with internal_links := insert link s.internal_links }
  else
    { s with external_links := insert link s.external_links }

/-- all_links.update(links) followed by the categorisation loop. -/
def classify_links (env : CrawlEnv) (base_domain : String)
    (links : List String) (s : CrawlState) : CrawlState :=
  links.foldl (classify_step env base_domain)
    { s with all_links := s.all_links ∪ links.toFinset }

/-- Seed navigation with the 3-attempt retry loop (crawler.py lines 90-98):
    the error of the third failed attempt is re-raised. -/
def seed_nav_retry (env : CrawlEnv) : Except String Unit :=
  match env.seed_nav 0 with
  | .ok _ => .ok ()
  | .error _ =>
      match env.seed_nav 1 with
      | .ok _ => .ok ()
      | .error _ => env.seed_nav 2

/-- Sub-page navigation with the 2-attempt retry loop (lines 178-186):
    the error of the second failed attempt is re-raised (and then caught by
    the per-link handler). -/
def sub_nav_retry (env : CrawlEnv) (link : String) : Except String Unit :=
  match env.sub_nav link 0 with
  | .ok _ => .ok ()
  | .error _ => env.sub_nav link 1

/-- Page-content capture with its caught failure (crawler.py lines 110-115
    for the seed page, lines 195-200 for sub-pages). -/
def capture_html (env : CrawlEnv) (include_html : Bool) (pageUrl : String)
    (s : CrawlState) : CrawlState :=
  if include_html then
    match env.page_content pageUrl with
    | .ok h => { s with html_content := s.html_content ++ [(pageUrl, h)] }
    | .error _ => s
  else s

/-- Sub-page link extraction with its caught failure (crawler.py lines
    202-214): on success merge and classify, on failure keep the state. -/
def merge_links (env : CrawlEnv) (base_url base_domain pageUrl : String)
    (s : CrawlState) : CrawlState :=
  match extract_links env pageUrl base_url with
  | .ok new_links => classify_links env base_domain new_links s
  | .error _ => s

/-- The successful-navigation part of one iteration of the sub-page loop
    (crawler.py lines 194-216): capture html, merge newly found links, then
    add the link to the visited set. -/
def visit_page (env : CrawlEnv) (base_url base_domain : String)
    (include_html : Bool) (link : String) (s : CrawlState) : CrawlState :=
  let s2 := merge_links env base_url base_domain link
    (capture_html env include_html link s)
  { s2 with crawled_urls := insert link s2.crawled_urls }

/-- The body of SiteCrawler._crawl_internal_pages (lines 159-226).
    Per candidate link: stop when the visited cap is reached, stop when a
    new page cannot be opened, skip the link when navigation exhausts its
    retries (caught by the per-link handler), otherwise visit it. -/
def crawl_internal_loop (env : CrawlEnv) (base_url base_domain : String)
    (max_pages : ℤ) (include_html : Bool) :
    List String → CrawlState → CrawlState
  | [], s => s
  | link :: rest, s =>
    if max_pages ≤ (s.crawled_urls.card : ℤ) then s
    else if env.new_page_ok link then
      match sub_nav_retry env link with
      | .error _ =>
          crawl_internal_loop env base_url base_domain max_pages include_html rest s
      | .ok _ =>
          crawl_internal_loop env base_url base_domain max_pages include_html rest
            (visit_page env base_url base_domain include_html link s)
    else s

/-- SiteCrawler._crawl_internal_pages: select up to max_pages - 1 internal
    links (Python slice semantics, arbitrary set order modelled as sorted
    order) and run the visiting loop. -/
def crawl_internal_pages (env : CrawlEnv) (base_url base_domain : String)
    (max_pages : ℤ) (include_html : Bool) (s : CrawlState) : CrawlState :=
  crawl_internal_loop env base_url base_domain max_pages include_html
    (pyTake (max_pages - 1) (s.internal_links.sort (· ≤ ·))) s

/-- The state of a freshly constructed SiteCrawler. -/
def init_state : CrawlState :=
  { crawled_urls := ∅, all_links := ∅, internal_links := ∅,
    external_links := ∅, html_content := [], screenshot_path := none }

/-- State after the seed page's screenshot-path assignment and html capture
    (crawler.py lines 104-115); the html read failure is caught. -/
def seed_state (env : CrawlEnv) (url : String)
    (include_screenshots include_html : Bool) : CrawlState :=
  capture_html env include_html url
    (if include_screenshots then
      { init_state with screenshot_path := some env.screenshot_name }
    else init_state)

/-- SiteCrawler._get_domain_info: whole body in one try, errors become an
    error payload for the slot only. -/
def get_domain_info (env : CrawlEnv) (url : String) : Except String DomainInfo :=
  let domain := env.registered_domain url
  match env.whois_lookup domain with
  | .ok w =>
      .ok { domain := domain, registrar := w.registrar,
            creation_date := w.creation_date,
            expiration_date := w.expiration_date, status := w.status }
  | .error e => .error e

/-- SiteCrawler._get_ip_info: resolve the address then look it up, whole
    body in one try, errors become an error payload for the slot only. -/
def get_ip_info (env : CrawlEnv) (url : String) : Except String IpInfo :=
  let domain := env.registered_domain url
  match env.gethostbyname domain with
  | .error e => .error e
  | .ok ip =>
      match env.ip_lookup ip with
      | .error e => .error e
      | .ok r =>
          .ok { ip := ip, asn := r.asn, asn_description := r.asn_description,
                country := r.country, org := r.org }

/-- SiteCrawler._calculate_content_score (crawler.py lines 278-295): the
    accumulated sum of the three terms, clamped by the final min with 100. -/
def calculate_content_score (s : CrawlState) : ℚ :=
  min (min ((s.crawled_urls.card : ℚ) / 10) 1 * 30
        + min ((s.internal_links.card : ℚ) / 50) 1 * 40
        + (if 0 < s.all_links.card then
            ((s.internal_links.card : ℚ) / (s.all_links.card : ℚ)) * 30
          else 0))
    100

/-- SiteCrawler._calculate_seo_score (crawler.py lines 297-316). -/
def calculate_seo_score (s : CrawlState) : ℚ :=
  min (min ((s.crawled_urls.card : ℚ) / 10) 1 * 25
        + min ((s.all_links.card : ℚ) / 100) 1 * 25
        + (if 0 < s.all_links.card then
            (if 3/10 ≤ (s.internal_links.card : ℚ) / (s.all_links.card : ℚ) ∧
                (s.internal_links.card : ℚ) / (s.all_links.card : ℚ) ≤ 7/10 then
              50
            else
              (1 - |1/2 - (s.internal_links.card : ℚ) / (s.all_links.card : ℚ)|) * 50)
          else 0))
    100

/-- SiteCrawler._calculate_performance_score (crawler.py lines 318-322). -/
def calculate_performance_score (s : CrawlState) : ℚ :=
  min (calculate_content_score s * 0.8) 100

/-- SiteCrawler._compile_results (crawler.py lines 228-244). -/
def compile_results (env : CrawlEnv) (s : CrawlState) (url : String)
    (include_html : Bool) : CrawlResult :=
  { url := url
    pages_crawled := s.crawled_urls.card + 1
    total_links := s.all_links.card
    internal_links := s.internal_links.card
    external_links := s.external_links.card
    crawled_urls := s.crawled_urls.sort (· ≤ ·)
    screenshot_path := s.screenshot_path
    html_content := if include_html then s.html_content else []
    domain_info := get_domain_info env url
    ip_info := get_ip_info env url
    content_score := calculate_content_score s
    seo_score := calculate_seo_score s
    performance_score := calculate_performance_score s }

/-- The crawl state after seed capture, seed link classification and the
    internal-page loop. -/
def crawl_main (env : CrawlEnv) (url : String) (max_pages : ℤ)
    (include_screenshots include_html : Bool) (links : List String) : CrawlState :=
  let base_domain := env.registered_domain url
  crawl_internal_pages env url base_domain max_pages include_html
    (classify_links env base_domain links
      (seed_state env url include_screenshots include_html))

/-- SiteCrawler.crawl_site (crawler.py lines 30-137).  The outer except
    returns the error dict, modelled as the .error constructor.  Failures
    that reach it from inside the try: exhausted seed navigation, the
    screenshot call (not individually wrapped in the source), and seed-page
    link extraction (not individually wrapped in the source). -/
def crawl_site (env : CrawlEnv) (url : String) (max_pages : ℤ)
    (include_screenshots include_html : Bool) : Except String CrawlResult :=
  match seed_nav_retry env with
  | .error e => .error e
  | .ok _ =>
      match (if include_screenshots then env.screenshot_ok else .ok ()) with
      | .error e => .error e
      | .ok _ =>
          match extract_links env url url with
          | .error e => .error e
          | .ok links =>
              .ok (compile_results env
                (crawl_main env url max_pages include_screenshots include_html links)
                url include_html)

/-- The persisted job record (models.py ScanResult, the fields that survive
    model_dump / json round-trips).  Timestamps are abstract clock readings. -/
structure ScanRecord where
  scan_id : String
  url : String
  status : ScanStatus
  created_at : ℕ
  completed_at : Option ℕ
  pages_crawled : ℕ
  total_links : ℕ
  internal_links : ℕ
  external_links : ℕ
  domain_info : Option (Except String DomainInfo)
  ip_info : Option (Except String IpInfo)
  content_score : Option ℚ
  seo_score : Option ℚ
  performance_score : Option ℚ
  has_screenshot : Bool
  has_html_archive : Bool
  error_message : Option String
deriving DecidableEq, Inhabited

/-- The response body of POST /scan (models.py ScanResponse). -/
structure ScanResponse where
  scan_id : String
  status : ScanStatus
  message : String
deriving DecidableEq, Repr, Inhabited

/-- The return value of the scan_site task. -/
inductive TaskReturn
  | success (scan_id : String)
  | failure (error : String)
deriving DecidableEq, Repr, Inhabited

/-- Oracle for the effects of the scan_site task (tasks.py): celery
    update_state calls and redis setex calls, each indexed in program
    order and able to raise; the crawl invocation, whose outer layer is an
    exception raised by the event-loop machinery and whose inner layer is
    the value crawl_site returned (error dict or results dict); and the
    clock, indexed per utcnow() call. -/
structure TaskEnv where
  update_state : ℕ → Except String Unit
  persist : ℕ → Except String Unit
  crawl : Except String (Except String CrawlResult)
  now : ℕ → ℕ

/-- ScanResult(scan_id, url, PROCESSING, created_at) with model defaults
    (tasks.py lines 49-54). -/
def initial_record (scan_id url : String) (t : ℕ) : ScanRecord :=
  { scan_id := scan_id, url := url, status := .processing, created_at := t,
    completed_at := none, pages_crawled := 0, total_links := 0,
    internal_links := 0, external_links := 0, domain_info := none,
    ip_info := none, content_score := none, seo_score := none,
    performance_score := none, has_screenshot := false,
    has_html_archive := false, error_message := none }

/-- A stored record overwritten with Failed status, captured error message
    and completion time (tasks.py lines 95-97 and 156-158). -/
def failed_record (p : ScanRecord) (msg : String) (t : ℕ) : ScanRecord :=
  { p with status := .failed, error_message := some msg,
           completed_at := some t }

/-- The Processing record updated with the successful crawl data
    (tasks.py lines 109-121). -/
def completed_record (p : ScanRecord) (r : CrawlResult) (t : ℕ) : ScanRecord :=
  { p with status := .completed,
           completed_at := some t,
           pages_crawled := r.pages_crawled,
           total_links := r.total_links,
           internal_links := r.internal_links,
           external_links := r.external_links,
           domain_info := some r.domain_info,
           ip_info := some r.ip_info,
           content_score := some r.content_score,
           seo_score := some r.seo_score,
           performance_score := some r.performance_score,
           has_screenshot := r.screenshot_path.isSome,
           has_html_archive := !r.html_content.isEmpty }

/-- The try-block of scan_site (tasks.py lines 41-149).  Returns the list
    of records written to the job key, in write order, together with either
    the task's return value or the exception that escaped the block. -/
def scan_site_body (env : TaskEnv) (scan_id url : String) :
    List ScanRecord × Except String TaskReturn :=
  match env.update_state 0 with
  | .error e => ([], .error e)
  | .ok _ =>
  match env.persist 0 with
  | .error e => ([], .error e)
  | .ok _ =>
  match env.update_state 1 with
  | .error e => ([initial_record scan_id url (env.now 0)], .error e)
  | .ok _ =>
  match env.update_state 2 with
  | .error e => ([initial_record scan_id url (env.now 0)], .error e)
  | .ok _ =>
  match env.crawl with
  | .error e => ([initial_record scan_id url (env.now 0)], .error e)
  | .ok crawl_results =>
  match env.update_state 3 with
  | .error e => ([initial_record scan_id url (env.now 0)], .error e)
  | .ok _ =>
  match crawl_results with
  | .error msg =>
      match env.persist 1 with
      | .error e => ([initial_record scan_id url (env.now 0)], .error e)
      | .ok _ =>
          ([initial_record scan_id url (env.now 0),
            failed_record (initial_record scan_id url (env.now 0)) msg (env.now 1)],
           .ok (.failure msg))
  | .ok r =>
      match env.persist 2 with
      | .error e => ([initial_record scan_id url (env.now 0)], .error e)
      | .ok _ =>
      match env.persist 3 with
      | .error e =>
          ([initial_record scan_id url (env.now 0),
            completed_record (initial_record scan_id url (env.now 0)) r (env.now 2)],
           .error e)
      | .ok _ =>
      match env.update_state 4 with
      | .error e =>
          ([initial_record scan_id url (env.now 0),
            completed_record (initial_record scan_id url (env.now 0)) r (env.now 2)],
           .error e)
      | .ok _ =>
          ([initial_record scan_id url (env.now 0),
            completed_record (initial_record scan_id url (env.now 0)) r (env.now 2)],
           .ok (.success scan_id))

/-- The scan_site task with its outermost except-handler (tasks.py lines
    151-167): on an escaped exception it reads back the job key; when a
    record exists it overwrites it with a Failed copy carrying str(e);
    when none exists it writes nothing and only returns the failure dict. -/
def scan_site (env : TaskEnv) (scan_id url : String) :
    List ScanRecord × TaskReturn :=
  match scan_site_body env scan_id url with
  | (writes, .ok r) => (writes, r)
  | (writes, .error e) =>
      match writes.getLast? with
      | none => (writes, .failure e)
      | some rec =>
          (writes ++ [failed_record rec e (env.now 3)], .failure e)

/-- The POST /scan handler (api.py lines 87-118): build a Pending
    ScanResult object, dispatch the task, return the response.  The second
    component is the Pending record the handler constructs (api.py lines
    95-100); the third is the list of Job Store writes the submission path
    performs. -/
def create_scan (scan_id url : String) (t : ℕ) :
    ScanResponse × ScanRecord × List ScanRecord :=
  let scan_result : ScanRecord :=
    { initial_record scan_id url t with status := .pending }
  ({ scan_id := scan_id, status := .pending,
     message := "Scan request submitted successfully" },
   scan_result, [])

/-- Reference content-score formula, written from the spec text of section
    4.5 to be compared with the implemented function. -/
def spec_content_score (pagesVisited internalLinks totalLinks : ℕ) : ℚ :=
  min ((pagesVisited : ℚ) / 10) 1 * 30 + min ((internalLinks : ℚ) / 50) 1 * 40 +
    (if totalLinks = 0 then 0 else ((internalLinks : ℚ) / (totalLinks : ℚ)) * 30)

/-- Record-level invariant of claim C8: a terminal record carries a
    completion timestamp, a Completed record carries no error message, a
    Failed record carries one. -/
def record_ok (r : ScanRecord) : Prop :=
  ((r.status = .completed ∨ r.status = .failed) → r.completed_at ≠ none) ∧
  (r.status = .completed → r.error_message = none) ∧
  (r.status = .failed → r.error_message ≠ none)

/-- Link-set invariant of the crawler state: the all-links set is exactly
    the union of the internal and external sets, and membership of each is
    decided by the registrable-domain comparison. -/
def link_inv (env : CrawlEnv) (bd : String) (s : CrawlState) : Prop :=
  s.all_links = s.internal_links ∪ s.external_links ∧
  (∀ x ∈ s.internal_links, env.registered_domain x = bd) ∧
  (∀ x ∈ s.external_links, env.registered_domain x ≠ bd)

/-- A concrete healthy environment: the seed page carries one internal and
    one external link, every navigation and lookup succeeds. -/
def wenv : CrawlEnv :=
  { seed_nav := fun _ => .ok ()
    screenshot_ok := .ok ()
    screenshot_name := "screenshots/20240101_000000.png"
    page_content := fun _ => .ok "<html></html>"
    raw_links := fun p =>
      if p = "https://ex.com" then .ok ["https://ex.com/a", "https://out.com/b"]
      else .ok []
    is_valid_url := fun _ => true
    url_join := fun b l => b ++ l
    registered_domain := fun u =>
      if u = "https://ex.com" ∨ u = "https://ex.com/a" then "ex.com" else "out.com"
    new_page_ok := fun _ => true
    sub_nav := fun _ _ => .ok ()
    gethostbyname := fun _ => .ok "93.184.216.34"
    whois_lookup := fun _ =>
      .ok { registrar := some "R", creation_date := none,
            expiration_date := none, status := none }
    ip_lookup := fun _ =>
      .ok { asn := some "AS1", asn_description := none,
            country := some "US", org := none } }

/-- The healthy environment with a failing screenshot capture. -/
def screenshot_fail_env : CrawlEnv :=
  { wenv with screenshot_ok := .error "screenshot failed" }

/-- The healthy environment with a failing domain-registration lookup. -/
def whois_fail_env : CrawlEnv :=
  { wenv with whois_lookup := fun _ => .error "whois timeout" }

/-- The crawl result of the healthy environment at max_pages = 10. -/
def w_result : CrawlResult :=
  ((crawl_site wenv "https://ex.com" 10 false false).toOption).getD default

/-- A task environment whose every external call succeeds and whose crawl
    returns the error dict of an unreachable seed. -/
def task_ok_env : TaskEnv :=
  { update_state := fun _ => .ok ()
    persist := fun _ => .ok ()
    crawl := .ok (.error "seed unreachable")
    now := fun i => i }

/-- A task environment whose very first progress update raises, before any
    record is persisted. -/
def progress_fail_env : TaskEnv :=
  { update_state := fun _ => .error "progress channel down"
    persist := fun _ => .ok ()
    crawl := .ok (.error "x")
    now := fun _ => 0 }

/-- A crawler state whose statistics are non-negative integers but whose
    internal set is not contained in the all-links set. -/
def bad_stats_state : CrawlState :=
  { crawled_urls := ∅, all_links := {"a"}, internal_links := {"a", "b"},
    external_links := ∅, html_content := [], screenshot_path := none }

/-- A small consistent crawler state: two links, one internal. -/
def small_state : CrawlState :=
  { crawled_urls := {"u"}, all_links := {"a", "b"}, internal_links := {"a"},
    external_links := {"b"}, html_content := [], screenshot_path := none }

lemma classify_step_crawled (env : CrawlEnv) (bd : String) (s : CrawlState)
    (x : String) : (classify_step env bd s x).crawled_urls = s.crawled_urls := by
  unfold classify_step; split <;> rfl

lemma classify_step_all (env : CrawlEnv) (bd : String) (s : CrawlState)
    (x : String) : (classify_step env bd s x).all_links = s.all_links := by
  unfold classify_step; split <;> rfl

lemma classify_step_union (env : CrawlEnv) (bd : String) (s : CrawlState)
    (x : String) :
    (classify_step env bd s x).internal_links ∪ (classify_step env bd s x).external_links
      = insert x (s.internal_links ∪ s.external_links) := by
  unfold classify_step; split
  · exact Finset.insert_union x s.internal_links s.external_links
  · exact Finset.union_insert x s.internal_links s.external_links

lemma classify_step_mem (env : CrawlEnv) (bd : String) (s : CrawlState)
    (x : String)
    (h1 : ∀ y ∈ s.internal_links, env.registered_domain y = bd)
    (h2 : ∀ y ∈ s.external_links, env.registered_domain y ≠ bd) :
    (∀ y ∈ (classify_step env bd s x).internal_links, env.registered_domain y = bd) ∧
    (∀ y ∈ (classify_step env bd s x).external_links, env.registered_domain y ≠ bd) := by
  by_cases h : env.registered_domain x = bd
  · simp only [classify_step, if_pos h]
    refine ⟨?_, h2⟩
    intro y hy
    rcases Finset.mem_insert.mp hy with rfl | hy
    · exact h
    · exact h1 y hy
  · simp only [classify_step, if_neg h]
    refine ⟨h1, ?_⟩
    intro y hy
    rcases Finset.mem_insert.mp hy with rfl | hy
    · exact h
    · exact h2 y hy

lemma foldl_classify_crawled (env : CrawlEnv) (bd : String) (l : List String) :
    ∀ s : CrawlState,
      (l.foldl (classify_step env bd) s).crawled_urls = s.crawled_urls := by
  induction l with
  | nil => intro s; rfl
  | cons x xs ih =>
      intro s
      rw [List.foldl_cons, ih, classify_step_crawled]

lemma foldl_classify_all (env : CrawlEnv) (bd : String) (l : List String) :
    ∀ s : CrawlState,
      (l.foldl (classify_step env bd) s).all_links = s.all_links := by
  induction l with
  | nil => intro s; rfl
  | cons x xs ih =>
      intro s
      rw [List.foldl_cons, ih, classify_step_all]

lemma foldl_classify_union (env : CrawlEnv) (bd : String) (l : List String) :
    ∀ s : CrawlState,
      (l.foldl (classify_step env bd) s).internal_links ∪
        (l.foldl (classify_step env bd) s).external_links
      = (s.internal_links ∪ s.external_links) ∪ l.toFinset := by
  induction l with
  | nil => intro s; simp
  | cons x xs ih =>
      intro s
      rw [List.foldl_cons, ih, classify_step_union, List.toFinset_cons,
        Finset.union_insert, Finset.insert_union]

lemma foldl_classify_mem (env : CrawlEnv) (bd : String) (l : List String) :
    ∀ s : CrawlState,
      (∀ y ∈ s.internal_links, env.registered_domain y = bd) →
      (∀ y ∈ s.external_links, env.registered_domain y ≠ bd) →
      (∀ y ∈ (l.foldl (classify_step env bd) s).internal_links,
          env.registered_domain y = bd) ∧
      (∀ y ∈ (l.foldl (classify_step env bd) s).external_links,
          env.registered_domain y ≠ bd) := by
  induction l with
  | nil => intro s h1 h2; exact ⟨h1, h2⟩
  | cons x xs ih =>
      intro s h1 h2
      rw [List.foldl_cons]
      obtain ⟨g1, g2⟩ := classify_step_mem env bd s x h1 h2
      exact ih _ g1 g2

lemma classify_links_crawled (env : CrawlEnv) (bd : String) (l : List String)
    (s : CrawlState) :
    (classify_links env bd l s).crawled_urls = s.crawled_urls := by
  unfold classify_links
  rw [foldl_classify_crawled]

lemma classify_links_inv (env : CrawlEnv) (bd : String) (l : List String)
    (s : CrawlState) (h : link_inv env bd s) :
    link_inv env bd (classify_links env bd l s) := by
  obtain ⟨hall, h1, h2⟩ := h
  unfold classify_links link_inv
  obtain ⟨g1, g2⟩ := foldl_classify_mem env bd l
    { s with all_links := s.all_links ∪ l.toFinset } h1 h2
  refine ⟨?_, g1, g2⟩
  rw [foldl_classify_all, foldl_classify_union]
  show s.all_links ∪ l.toFinset = (s.internal_links ∪ s.external_links) ∪ l.toFinset
  rw [hall]

lemma capture_html_crawled (env : CrawlEnv) (ihf : Bool) (u : String)
    (s : CrawlState) : (capture_html env ihf u s).crawled_urls = s.crawled_urls := by
  unfold capture_html
  split
  · cases env.page_content u <;> rfl
  · rfl

lemma capture_html_inv (env : CrawlEnv) (bd : String) (ihf : Bool) (u : String)
    (s : CrawlState) (h : link_inv env bd s) :
    link_inv env bd (capture_html env ihf u s) := by
  unfold capture_html
  split
  · cases env.page_content u <;> exact h
  · exact h

lemma merge_links_crawled (env : CrawlEnv) (bu bd u : String) (s : CrawlState) :
    (merge_links env bu bd u s).crawled_urls = s.crawled_urls := by
  unfold merge_links
  cases extract_links env u bu with
  | error e => rfl
  | ok nl => exact classify_links_crawled env bd nl s

lemma merge_links_inv (env : CrawlEnv) (bu bd u : String) (s : CrawlState)
    (h : link_inv env bd s) : link_inv env bd (merge_links env bu bd u s) := by
  unfold merge_links
  cases extract_links env u bu with
  | error e => exact h
  | ok nl => exact classify_links_inv env bd nl s h

lemma visit_page_crawled (env : CrawlEnv) (bu bd : String) (ihf : Bool)
    (x : String) (s : CrawlState) :
    (visit_page env bu bd ihf x s).crawled_urls = insert x s.crawled_urls := by
  unfold visit_page
  dsimp only
  rw [merge_links_crawled, capture_html_crawled]

lemma visit_page_inv (env : CrawlEnv) (bu bd : String) (ihf : Bool)
    (x : String) (s : CrawlState) (h : link_inv env bd s) :
    link_inv env bd (visit_page env bu bd ihf x s) :=
  merge_links_inv env bu bd x (capture_html env ihf x s)
    (capture_html_inv env bd ihf x s h)

lemma crawl_internal_loop_card (env : CrawlEnv) (bu bd : String) (mp : ℤ)
    (ihf : Bool) (l : List String) :
    ∀ s : CrawlState,
      (crawl_internal_loop env bu bd mp ihf l s).crawled_urls.card
        ≤ s.crawled_urls.card + l.length := by
  induction l with
  | nil => intro s; simp [crawl_internal_loop]
  | cons x xs ih =>
      intro s
      rw [crawl_internal_loop]
      split
      · exact Nat.le_add_right _ _
      · split
        · cases h : sub_nav_retry env x with
          | error e =>
              simp only [List.length_cons]
              calc (crawl_internal_loop env bu bd mp ihf xs s).crawled_urls.card
                  ≤ s.crawled_urls.card + xs.length := ih s
                _ ≤ s.crawled_urls.card + (xs.length + 1) := by omega
          | ok u =>
              simp only [List.length_cons]
              calc (crawl_internal_loop env bu bd mp ihf xs
                      (visit_page env bu bd ihf x s)).crawled_urls.card
                  ≤ (visit_page env bu bd ihf x s).crawled_urls.card + xs.length :=
                    ih _
                _ ≤ (s.crawled_urls.card + 1) + xs.length := by
                    rw [visit_page_crawled]
                    exact Nat.add_le_add_right (Finset.card_insert_le x _) _
                _ = s.crawled_urls.card + (xs.length + 1) := by omega
        · exact Nat.le_add_right _ _

lemma crawl_internal_loop_inv (env : CrawlEnv) (bu bd : String) (mp : ℤ)
    (ihf : Bool) (l : List String) :
    ∀ s : CrawlState, link_inv env bd s →
      link_inv env bd (crawl_internal_loop env bu bd mp ihf l s) := by
  induction l with
  | nil => intro s h; exact h
  | cons x xs ih =>
      intro s h
      rw [crawl_internal_loop]
      split
      · exact h
      · split
        · cases hnav : sub_nav_retry env x with
          | error e => exact ih s h
          | ok u => exact ih _ (visit_page_inv env bu bd ihf x s h)
        · exact h

lemma init_state_inv (env : CrawlEnv) (bd : String) : link_inv env bd init_state := by
  refine ⟨?_, ?_, ?_⟩ <;> simp [init_state, link_inv]

lemma seed_state_inv (env : CrawlEnv) (bd : String) (url : String)
    (ss ihf : Bool) : link_inv env bd (seed_state env url ss ihf) := by
  unfold seed_state
  apply capture_html_inv
  split
  · exact init_state_inv env bd
  · exact init_state_inv env bd

lemma seed_state_crawled (env : CrawlEnv) (url : String) (ss ihf : Bool) :
    (seed_state env url ss ihf).crawled_urls = ∅ := by
  unfold seed_state
  rw [capture_html_crawled]
  split <;> rfl

lemma pyTake_length_le (k : ℤ) (hk : 0 ≤ k) (l : List String) :
    ((pyTake k l).length : ℤ) ≤ k := by
  unfold pyTake
  rw [if_pos hk]
  calc ((l.take k.toNat).length : ℤ) ≤ (k.toNat : ℤ) := by
        exact_mod_cast List.length_take_le k.toNat l
    _ = k := Int.toNat_of_nonneg hk

lemma crawl_main_inv (env : CrawlEnv) (url : String) (mp : ℤ) (ss ihf : Bool)
    (links : List String) :
    link_inv env (env.registered_domain url) (crawl_main env url mp ss ihf links) := by
  unfold crawl_main crawl_internal_pages
  apply crawl_internal_loop_inv
  apply classify_links_inv
  exact seed_state_inv env _ url ss ihf

lemma crawl_main_card (env : CrawlEnv) (url : String) (mp : ℤ) (ss ihf : Bool)
    (links : List String) (hmp : 1 ≤ mp) :
    ((crawl_main env url mp ss ihf links).crawled_urls.card : ℤ) + 1 ≤ mp := by
  unfold crawl_main crawl_internal_pages
  dsimp only
  have hbase : (classify_links env (env.registered_domain url) links
      (seed_state env url ss ihf)).crawled_urls.card = 0 := by
    rw [classify_links_crawled, seed_state_crawled]
    rfl
  have hloop := crawl_internal_loop_card env url (env.registered_domain url) mp ihf
    (pyTake (mp - 1) ((classify_links env (env.registered_domain url) links
      (seed_state env url ss ihf)).internal_links.sort (· ≤ ·)))
    (classify_links env (env.registered_domain url) links (seed_state env url ss ihf))
  rw [hbase] at hloop
  have hlen := pyTake_length_le (mp - 1) (by omega)
    ((classify_links env (env.registered_domain url) links
      (seed_state env url ss ihf)).internal_links.sort (· ≤ ·))
  omega

lemma link_inv_card (env : CrawlEnv) (bd : String) (s : CrawlState)
    (h : link_inv env bd s) :
    s.all_links.card = s.internal_links.card + s.external_links.card := by
  obtain ⟨hall, h1, h2⟩ := h
  rw [hall, Finset.card_union_of_disjoint]
  rw [Finset.disjoint_left]
  intro a ha hb
  exact h2 a hb (h1 a ha)

lemma link_inv_internal_le (env : CrawlEnv) (bd : String) (s : CrawlState)
    (h : link_inv env bd s) : s.internal_links.card ≤ s.all_links.card := by
  apply Finset.card_le_card
  rw [h.1]
  exact Finset.subset_union_left

lemma crawl_site_ok (env : CrawlEnv) (url : String) (mp : ℤ) (ss ihf : Bool)
    (r : CrawlResult) (h : crawl_site env url mp ss ihf = .ok r) :
    ∃ s : CrawlState, r = compile_results env s url ihf ∧
      link_inv env (env.registered_domain url) s ∧
      (1 ≤ mp → (s.crawled_urls.card : ℤ) + 1 ≤ mp) := by
  unfold crawl_site at h
  split at h
  · exact absurd h (by simp)
  · split at h
    · exact absurd h (by simp)
    · split at h
      · exact absurd h (by simp)
      · rename_i links hlinks
        refine ⟨crawl_main env url mp ss ihf links, ?_, crawl_main_inv env url mp ss ihf links,
          crawl_main_card env url mp ss ihf links⟩
        exact (Except.ok.inj h).symm

lemma calculate_content_score_nonneg (s : CrawlState) :
    0 ≤ calculate_content_score s := by
  unfold calculate_content_score
  have hA : (0:ℚ) ≤ min ((s.crawled_urls.card : ℚ) / 10) 1 * 30 := by positivity
  have hB : (0:ℚ) ≤ min ((s.internal_links.card : ℚ) / 50) 1 * 40 := by positivity
  have hC : (0:ℚ) ≤ (if 0 < s.all_links.card then
      ((s.internal_links.card : ℚ) / (s.all_links.card : ℚ)) * 30 else 0) := by
    split
    · positivity
    · exact le_refl 0
  rw [le_min_iff]
  exact ⟨by linarith, by norm_num⟩

lemma content_sum_le (s : CrawlState)
    (h : s.internal_links.card ≤ s.all_links.card) :
    min ((s.crawled_urls.card : ℚ) / 10) 1 * 30
      + min ((s.internal_links.card : ℚ) / 50) 1 * 40
      + (if 0 < s.all_links.card then
          ((s.internal_links.card : ℚ) / (s.all_links.card : ℚ)) * 30 else 0)
      ≤ 100 := by
  have hA : min ((s.crawled_urls.card : ℚ) / 10) 1 * 30 ≤ 30 := by
    have := min_le_right ((s.crawled_urls.card : ℚ) / 10) 1
    linarith
  have hB : min ((s.internal_links.card : ℚ) / 50) 1 * 40 ≤ 40 := by
    have := min_le_right ((s.internal_links.card : ℚ) / 50) 1
    linarith
  have hC : (if 0 < s.all_links.card then
      ((s.internal_links.card : ℚ) / (s.all_links.card : ℚ)) * 30 else 0) ≤ 30 := by
    split
    · rename_i hpos
      have ht : (0:ℚ) < (s.all_links.card : ℚ) := by exact_mod_cast hpos
      have hr : ((s.internal_links.card : ℚ) / (s.all_links.card : ℚ)) ≤ 1 :=
        (div_le_one ht).mpr (by exact_mod_cast h)
      linarith
    · norm_num
  linarith

lemma calculate_content_score_eq_spec (s : CrawlState)
    (h : s.internal_links.card ≤ s.all_links.card) :
    calculate_content_score s
      = spec_content_score s.crawled_urls.card s.internal_links.card
          s.all_links.card := by
  have hif : (if 0 < s.all_links.card then
        ((s.internal_links.card : ℚ) / (s.all_links.card : ℚ)) * 30 else 0)
      = (if s.all_links.card = 0 then 0
         else ((s.internal_links.card : ℚ) / (s.all_links.card : ℚ)) * 30) := by
    rcases Nat.eq_zero_or_pos s.all_links.card with h0 | h0
    · rw [if_neg (by omega), if_pos h0]
    · rw [if_pos h0, if_neg (by omega)]
  unfold calculate_content_score spec_content_score
  rw [min_eq_left (content_sum_le s h), hif]

lemma calculate_seo_score_nonneg (s : CrawlState)
    (h : s.internal_links.card ≤ s.all_links.card) :
    0 ≤ calculate_seo_score s := by
  unfold calculate_seo_score
  have hA : (0:ℚ) ≤ min ((s.crawled_urls.card : ℚ) / 10) 1 * 25 := by positivity
  have hB : (0:ℚ) ≤ min ((s.all_links.card : ℚ) / 100) 1 * 25 := by positivity
  have hC : (0:ℚ) ≤ (if 0 < s.all_links.card then
      (if 3/10 ≤ (s.internal_links.card : ℚ) / (s.all_links.card : ℚ) ∧
          (s.internal_links.card : ℚ) / (s.all_links.card : ℚ) ≤ 7/10 then 50
       else (1 - |1/2 - (s.internal_links.card : ℚ) / (s.all_links.card : ℚ)|) * 50)
      else 0) := by
    split
    · rename_i hpos
      have ht : (0:ℚ) < (s.all_links.card : ℚ) := by exact_mod_cast hpos
      have hr0 : (0:ℚ) ≤ (s.internal_links.card : ℚ) / (s.all_links.card : ℚ) := by
        positivity
      have hr1 : (s.internal_links.card : ℚ) / (s.all_links.card : ℚ) ≤ 1 :=
        (div_le_one ht).mpr (by exact_mod_cast h)
      split
      · norm_num
      · have habs : |1/2 - (s.internal_links.card : ℚ) / (s.all_links.card : ℚ)|
            ≤ 1/2 := by
          rw [abs_le]
          constructor <;> linarith
        linarith
    · exact le_refl 0
  rw [le_min_iff]
  exact ⟨by linarith, by norm_num⟩

lemma calculate_performance_score_nonneg (s : CrawlState) :
    0 ≤ calculate_performance_score s := by
  unfold calculate_performance_score
  have := calculate_content_score_nonneg s
  rw [le_min_iff]
  constructor
  · nlinarith
  · norm_num

lemma scan_site_body_writes_shape (env : TaskEnv) (scan_id url : String) :
    (scan_site_body env scan_id url).1 = [] ∨
    ∃ tail, (scan_site_body env scan_id url).1
        = initial_record scan_id url (env.now 0) :: tail := by
  unfold scan_site_body
  repeat' split
  all_goals first
    | exact Or.inl rfl
    | exact Or.inr ⟨_, rfl⟩

lemma scan_site_body_mem (env : TaskEnv) (scan_id url : String)
    (r : ScanRecord) (h : r ∈ (scan_site_body env scan_id url).1) :
    r = initial_record scan_id url (env.now 0) ∨
    (∃ msg, r = failed_record (initial_record scan_id url (env.now 0)) msg
        (env.now 1)) ∨
    (∃ cr, r = completed_record (initial_record scan_id url (env.now 0)) cr
        (env.now 2)) := by
  unfold scan_site_body at h
  repeat' split at h
  all_goals simp only [List.mem_cons, List.not_mem_nil, or_false] at h
  all_goals first
    | exact h.elim
    | exact Or.inl h
    | (rcases h with rfl | rfl
       · exact Or.inl rfl
       · exact Or.inr (Or.inl ⟨_, rfl⟩))
    | (rcases h with rfl | rfl
       · exact Or.inl rfl
       · exact Or.inr (Or.inr ⟨_, rfl⟩))

lemma scan_site_first_write (env : TaskEnv) (scan_id url : String)
    (rec : ScanRecord) (rest : List ScanRecord)
    (h : (scan_site env scan_id url).1 = rec :: rest) :
    rec = initial_record scan_id url (env.now 0) := by
  unfold scan_site at h
  rcases scan_site_body_writes_shape env scan_id url with h0 | ⟨tail, h0⟩
  · split at h
    · rename_i writes res heq
      rw [heq] at h0
      simp only at h0
      subst h0
      exact absurd h (by simp)
    · rename_i writes e heq
      rw [heq] at h0
      simp only at h0
      subst h0
      simp only [List.getLast?_nil] at h
      exact absurd h (by simp)
  · split at h
    · rename_i writes res heq
      rw [heq] at h0
      simp only at h0
      rw [h0] at h
      exact (List.cons.inj h).1.symm
    · rename_i writes e heq
      rw [heq] at h0
      simp only at h0
      subst h0
      cases hgl : (initial_record scan_id url (env.now 0) :: tail).getLast? with
      | none =>
          rw [List.getLast?_eq_none_iff] at hgl
          exact absurd hgl (by simp)
      | some rec0 =>
          rw [hgl] at h
          simp only [List.cons_append] at h
          exact (List.cons.inj h).1.symm

lemma record_ok_initial (i u : String) (t : ℕ) :
    record_ok (initial_record i u t) := by
  simp [record_ok, initial_record]

lemma record_ok_failed (p : ScanRecord) (msg : String) (t : ℕ) :
    record_ok (failed_record p msg t) := by
  simp [record_ok, failed_record]

lemma record_ok_completed (p : ScanRecord) (hp : p.error_message = none)
    (cr : CrawlResult) (t : ℕ) : record_ok (completed_record p cr t) := by
  simp [record_ok, completed_record, hp]

lemma crawl_internal_loop_stop (env : CrawlEnv) (bu bd : String) (mp : ℤ)
    (ihf : Bool) (l : List String) (s : CrawlState)
    (hmp : mp ≤ (s.crawled_urls.card : ℤ)) :
    crawl_internal_loop env bu bd mp ihf l s = s := by
  cases l with
  | nil => rfl
  | cons x xs => rw [crawl_internal_loop, if_pos hmp]

lemma crawl_main_crawled_of_nonpos (env : CrawlEnv) (url : String) (mp : ℤ)
    (ss ihf : Bool) (links : List String) (hmp : mp ≤ 0) :
    (crawl_main env url mp ss ihf links).crawled_urls = ∅ := by
  unfold crawl_main crawl_internal_pages
  dsimp only
  rw [crawl_internal_loop_stop _ _ _ _ _ _ _ (by
        rw [classify_links_crawled, seed_state_crawled]
        simpa using hmp),
     classify_links_crawled, seed_state_crawled]

lemma link_inv_disjoint (env : CrawlEnv) (bd : String) (s : CrawlState)
    (h : link_inv env bd s) :
    Disjoint s.internal_links s.external_links := by
  rw [Finset.disjoint_left]
  intro a ha hb
  exact h.2.2 a hb (h.2.1 a ha)

lemma calculate_content_score_le (s : CrawlState) :
    calculate_content_score s ≤ 100 := by
  unfold calculate_content_score
  exact min_le_right _ _

lemma calculate_seo_score_le (s : CrawlState) :
    calculate_seo_score s ≤ 100 := by
  unfold calculate_seo_score
  exact min_le_right _ _

lemma calculate_performance_score_le (s : CrawlState) :
    calculate_performance_score s ≤ 100 := by
  unfold calculate_performance_score
  exact min_le_right _ _

/-- Claim C1: evaluating crawl_site at an input whose seed fetch succeeds
    on the first attempt and whose only failure is the screenshot capture:
    the crawl surfaces the error result instead of continuing, refuting
    that every failure other than an exhausted seed fetch is caught. -/
theorem claim_c1_screenshot_failure_aborts_crawl :
    seed_nav_retry screenshot_fail_env = .ok () ∧
    crawl_site screenshot_fail_env "https://ex.com" 10 true false
      = .error "screenshot failed" :=
  ⟨rfl, rfl⟩

/-- Claim C2: evaluating scan_site at an input whose first progress update
    raises before any record is persisted: the outermost handler leaves the
    store empty — no Failed record is synthesized. -/
theorem claim_c2_no_failed_record_synthesized :
    scan_site progress_fail_env "scan-1" "https://ex.com"
      = ([], .failure "progress channel down") :=
  rfl

/-- Claim C3, counterexample: at max_pages = 0 the seed page is still
    crawled, so the completed crawl reports pagesCrawled = 1, exceeding
    maxPages. -/
theorem claim_c3_counterexample :
    (crawl_site wenv "https://ex.com" 0 false false).map
        (fun r => r.pages_crawled) = .ok 1 ∧ ¬ ((1 : ℤ) ≤ 0) := by
  constructor
  · have h1 : (crawl_site wenv "https://ex.com" 0 false false).map
        (fun r => r.pages_crawled)
        = .ok ((crawl_main wenv "https://ex.com" 0 false false
            ["https://ex.com/a", "https://out.com/b"]).crawled_urls.card + 1) := rfl
    rw [h1, crawl_main_crawled_of_nonpos wenv "https://ex.com" 0 false false
      ["https://ex.com/a", "https://out.com/b"] (by decide)]
    rfl
  · decide

/-- Claim C3 as amended: for every completed crawl, pagesCrawled equals one
    plus the number of successfully visited internal sub-pages, and
    whenever maxPages is at least 1, pagesCrawled does not exceed it. -/
theorem claim_c3_pages_crawled_bound (env : CrawlEnv) (url : String)
    (mp : ℤ) (ss ihf : Bool) (r : CrawlResult) (hmp : 1 ≤ mp)
    (h : crawl_site env url mp ss ihf = .ok r) :
    r.pages_crawled = r.crawled_urls.length + 1 ∧ (r.pages_crawled : ℤ) ≤ mp := by
  obtain ⟨s, rfl, hinv, hcard⟩ := crawl_site_ok env url mp ss ihf r h
  constructor
  · show s.crawled_urls.card + 1 = (s.crawled_urls.sort (· ≤ ·)).length + 1
    rw [Finset.length_sort]
  · have h2 := hcard hmp
    show ((s.crawled_urls.card + 1 : ℕ) : ℤ) ≤ mp
    push_cast
    push_cast at h2
    omega

/-- Witness for the amended claim C3, at a crawl that visits one sub-page
    with max_pages = 10. -/
theorem claim_c3_witness :
    w_result.pages_crawled = w_result.crawled_urls.length + 1 ∧
    (w_result.pages_crawled : ℤ) ≤ 10 :=
  claim_c3_pages_crawled_bound wenv "https://ex.com" 10 false false w_result
    (by decide) rfl

/-- Claim C4: for every completed crawl, totalLinks = internalLinks +
    externalLinks, and the internal and external sets are a partition of
    the all-links set of the underlying crawl state. -/
theorem claim_c4_total_links_partition (env : CrawlEnv) (url : String)
    (mp : ℤ) (ss ihf : Bool) (r : CrawlResult)
    (h : crawl_site env url mp ss ihf = .ok r) :
    r.total_links = r.internal_links + r.external_links ∧
    ∃ s : CrawlState, r = compile_results env s url ihf ∧
      s.all_links = s.internal_links ∪ s.external_links ∧
      Disjoint s.internal_links s.external_links := by
  obtain ⟨s, rfl, hinv, -⟩ := crawl_site_ok env url mp ss ihf r h
  exact ⟨link_inv_card env _ s hinv, s, rfl, hinv.1, link_inv_disjoint env _ s hinv⟩

/-- Witness for claim C4 at a crawl discovering one internal and one
    external link. -/
theorem claim_c4_witness :
    w_result.total_links = w_result.internal_links + w_result.external_links :=
  (claim_c4_total_links_partition wenv "https://ex.com" 10 false false
    w_result rfl).1

/-- Claim C5, counterexample: the submission path performs no Job Store
    write at all, so no record with status Pending is persisted under the
    new job id. -/
theorem claim_c5_counterexample :
    ¬ ∃ rec ∈ (create_scan "scan-1" "https://ex.com" 0).2.2,
        rec.status = ScanStatus.pending := by
  simp [create_scan]

/-- Claim C5 as amended: at submission a Pending record object is
    constructed and Pending is returned to the caller, but the submission
    path persists nothing; the first record persisted for the id, when one
    exists, is the orchestrator's Processing record. -/
theorem claim_c5_pending_not_persisted :
    (∀ scan_id url t,
        (create_scan scan_id url t).2.2 = ([] : List ScanRecord) ∧
        (create_scan scan_id url t).2.1.status = ScanStatus.pending ∧
        (create_scan scan_id url t).1.status = ScanStatus.pending) ∧
    (∀ env scan_id url rec rest,
        (scan_site env scan_id url).1 = rec :: rest →
        rec.status = ScanStatus.processing) := by
  constructor
  · intro i u t
    exact ⟨rfl, rfl, rfl⟩
  · intro env i u rec rest h
    rw [scan_site_first_write env i u rec rest h]
    rfl

/-- Witness for the amended claim C5: in a concrete run the first persisted
    record has status Processing. -/
theorem claim_c5_witness :
    ((scan_site task_ok_env "scan-1" "https://ex.com").1.headD default).status
      = ScanStatus.processing :=
  claim_c5_pending_not_persisted.2 task_ok_env "scan-1" "https://ex.com"
    ((scan_site task_ok_env "scan-1" "https://ex.com").1.headD default)
    ((scan_site task_ok_env "scan-1" "https://ex.com").1.tail) rfl

/-- Claim C6: for every completed crawl, the reported content score equals
    the reference formula of the spec over the crawl statistics. -/
theorem claim_c6_content_score_formula (env : CrawlEnv) (url : String)
    (mp : ℤ) (ss ihf : Bool) (r : CrawlResult)
    (h : crawl_site env url mp ss ihf = .ok r) :
    r.content_score
      = spec_content_score r.crawled_urls.length r.internal_links
          r.total_links := by
  obtain ⟨s, rfl, hinv, -⟩ := crawl_site_ok env url mp ss ihf r h
  show calculate_content_score s
      = spec_content_score (s.crawled_urls.sort (· ≤ ·)).length
          s.internal_links.card s.all_links.card
  rw [Finset.length_sort]
  exact calculate_content_score_eq_spec s (link_inv_internal_le env _ s hinv)

/-- Witness for claim C6 at a crawl with one visited sub-page, one internal
    link and two total links. -/
theorem claim_c6_witness :
    w_result.content_score
      = spec_content_score w_result.crawled_urls.length
          w_result.internal_links w_result.total_links :=
  claim_c6_content_score_formula wenv "https://ex.com" 10 false false
    w_result rfl

/-- Claim C7, counterexample: a state with non-negative integer statistics
    (0 visited pages, 1 total link, 2 internal links) whose SEO score is
    negative, refuting that the scores always lie in the unit interval
    scaled to 100. -/
theorem claim_c7_counterexample : calculate_seo_score bad_stats_state < 0 := by
  have h1 : bad_stats_state.crawled_urls.card = 0 := rfl
  have h2 : bad_stats_state.all_links.card = 1 := rfl
  have h3 : bad_stats_state.internal_links.card = 2 := by decide
  unfold calculate_seo_score
  rw [h1, h2, h3]
  norm_num [min_def, abs_of_nonneg]

/-- Claim C7 as amended: for every crawl state whose internal-link count
    does not exceed its total-link count — as holds for every state an
    actual crawl produces — the content, SEO and performance scores lie in
    the interval from 0 to 100, and on the all-zero state all three scores
    are 0. -/
theorem claim_c7_scores_bounded :
    (∀ s : CrawlState, s.internal_links.card ≤ s.all_links.card →
      (0 ≤ calculate_content_score s ∧ calculate_content_score s ≤ 100) ∧
      (0 ≤ calculate_seo_score s ∧ calculate_seo_score s ≤ 100) ∧
      (0 ≤ calculate_performance_score s ∧
        calculate_performance_score s ≤ 100)) ∧
    (calculate_content_score init_state = 0 ∧
      calculate_seo_score init_state = 0 ∧
      calculate_performance_score init_state = 0) := by
  constructor
  · intro s h
    exact ⟨⟨calculate_content_score_nonneg s, calculate_content_score_le s⟩,
      ⟨calculate_seo_score_nonneg s h, calculate_seo_score_le s⟩,
      ⟨calculate_performance_score_nonneg s, calculate_performance_score_le s⟩⟩
  · refine ⟨?_, ?_, ?_⟩
    · norm_num [calculate_content_score, init_state, min_def]
    · norm_num [calculate_seo_score, init_state, min_def]
    · norm_num [calculate_performance_score, calculate_content_score, init_state,
        min_def]

/-- Witness for the amended claim C7 at a consistent two-link state. -/
theorem claim_c7_witness :
    (0 ≤ calculate_content_score small_state ∧
      calculate_content_score small_state ≤ 100) ∧
    (0 ≤ calculate_seo_score small_state ∧
      calculate_seo_score small_state ≤ 100) ∧
    (0 ≤ calculate_performance_score small_state ∧
      calculate_performance_score small_state ≤ 100) :=
  claim_c7_scores_bounded.1 small_state (by decide)

/-- Claim C8: every record the orchestrator ever persists satisfies the
    state-machine safety conditions: a terminal record has a completion
    timestamp, a Completed record has no error message, a Failed record
    carries one. -/
theorem claim_c8_record_invariant (env : TaskEnv) (scan_id url : String)
    (r : ScanRecord) (h : r ∈ (scan_site env scan_id url).1) : record_ok r := by
  unfold scan_site at h
  split at h
  · rename_i writes res heq
    have h2 : r ∈ (scan_site_body env scan_id url).1 := by rw [heq]; exact h
    rcases scan_site_body_mem env scan_id url r h2 with rfl | ⟨msg, rfl⟩ | ⟨cr, rfl⟩
    · exact record_ok_initial _ _ _
    · exact record_ok_failed _ _ _
    · exact record_ok_completed _ rfl cr _
  · rename_i writes e heq
    split at h
    · have h2 : r ∈ (scan_site_body env scan_id url).1 := by rw [heq]; exact h
      rcases scan_site_body_mem env scan_id url r h2 with rfl | ⟨msg, rfl⟩ | ⟨cr, rfl⟩
      · exact record_ok_initial _ _ _
      · exact record_ok_failed _ _ _
      · exact record_ok_completed _ rfl cr _
    · rename_i rec0 hgl
      have h3 : r ∈ writes ++ [failed_record rec0 e (env.now 3)] := h
      rcases List.mem_append.mp h3 with hin | hin
      · have h2 : r ∈ (scan_site_body env scan_id url).1 := by rw [heq]; exact hin
        rcases scan_site_body_mem env scan_id url r h2 with rfl | ⟨msg, rfl⟩ | ⟨cr, rfl⟩
        · exact record_ok_initial _ _ _
        · exact record_ok_failed _ _ _
        · exact record_ok_completed _ rfl cr _
      · rw [List.mem_singleton] at hin
        subst hin
        exact record_ok_failed _ _ _

/-- Witness for claim C8: the first record of a concrete run satisfies the
    invariant. -/
theorem claim_c8_witness :
    record_ok ((scan_site task_ok_env "scan-1" "https://ex.com").1.headD default) :=
  claim_c8_record_invariant task_ok_env "scan-1" "https://ex.com" _ (by decide)

/-- Claim C9: the two enrichment lookups are isolated — when the
    domain-registration lookup throws while name resolution and the IP
    lookup succeed, the domain slot holds exactly the error payload, the IP
    slot holds the full payload, and the compiled results carry both
    regardless of the crawl state, so the job still completes. -/
theorem claim_c9_enrichment_isolated (env : CrawlEnv) (url msg ip : String)
    (rec : IpRecord)
    (hdom : env.whois_lookup (env.registered_domain url) = .error msg)
    (hip1 : env.gethostbyname (env.registered_domain url) = .ok ip)
    (hip2 : env.ip_lookup ip = .ok rec) :
    get_domain_info env url = .error msg ∧
    get_ip_info env url
      = .ok { ip := ip, asn := rec.asn, asn_description := rec.asn_description,
              country := rec.country, org := rec.org } ∧
    ∀ (s : CrawlState) (ihf : Bool),
      (compile_results env s url ihf).domain_info = .error msg ∧
      (compile_results env s url ihf).ip_info
        = .ok { ip := ip, asn := rec.asn,
                asn_description := rec.asn_description,
                country := rec.country, org := rec.org } := by
  have h1 : get_domain_info env url = .error msg := by
    simp [get_domain_info, hdom]
  have h2 : get_ip_info env url
      = .ok { ip := ip, asn := rec.asn, asn_description := rec.asn_description,
              country := rec.country, org := rec.org } := by
    simp [get_ip_info, hip1, hip2]
  exact ⟨h1, h2, fun s ihf => ⟨h1, h2⟩⟩

/-- Witness for claim C9 at a concrete environment with a failing whois
    lookup and a succeeding IP lookup. -/
theorem claim_c9_witness :
    get_domain_info whois_fail_env "https://ex.com" = .error "whois timeout" ∧
    get_ip_info whois_fail_env "https://ex.com"
      = .ok { ip := "93.184.216.34", asn := some "AS1", asn_description := none,
              country := some "US", org := none } :=
  ⟨(claim_c9_enrichment_isolated whois_fail_env "https://ex.com" "whois timeout"
      "93.184.216.34" ⟨some "AS1", none, some "US", none⟩ rfl rfl rfl).1,
   (claim_c9_enrichment_isolated whois_fail_env "https://ex.com" "whois timeout"
      "93.184.216.34" ⟨some "AS1", none, some "US", none⟩ rfl rfl rfl).2.1⟩

/-- Claim C10: for every crawl state the performance score equals exactly
    0.8 times the content score, hence never exceeds 80 — the min-with-100
    clamp in the performance formula is never the binding branch. -/
theorem claim_c10_performance_derived (s : CrawlState) :
    calculate_performance_score s = calculate_content_score s * 0.8 ∧
    calculate_performance_score s ≤ 80 := by
  have h100 : calculate_content_score s ≤ 100 := calculate_content_score_le s
  have h80 : calculate_content_score s * 0.8 ≤ 80 := by nlinarith
  have heq : calculate_performance_score s = calculate_content_score s * 0.8 := by
    unfold calculate_performance_score
    exact min_eq_left (by linarith)
  exact ⟨heq, by rw [heq]; exact h80⟩

end WebScorin
